import Mathlib

/-!
Verification of the core of the `gateway-rs` LoRa gateway agent against its
specification.  The development shallowly embeds the Rust sources:

* `src/beacon/src/beacon.rs`      — `Beacon::new` and `rand_payload`
* `src/src/region_watcher.rs`     — the region watcher retry loop
* `src/src/service/router.rs`     — the router service / conduit state machine
* `src/src/traits/msg_sign.rs`    — the `MsgSign` blanking-then-signing macro
* `src/src/error.rs`              — the error taxonomy

Machine integers are modelled as `Nat` with explicit reduction modulo `2^w`;
bytes are `Nat` values below 256 held in `List Nat`.  Fallible Rust code
returns `Except`; a Rust panic is modelled as the `none` value of an
enclosing `Option`.  External crates (`sha2`, `rand_chacha`) are embedded as
executable pure functions.  Parts of the repository that are outside the
excerpt (the beacon crate's `Entropy` and `RegionParams` modules, the
generated protobuf message types) are modelled from the specification, as
flagged in their doc comments.
-/

/-! ## Machine-word helpers -/

/-- Reduce a natural number to a 32-bit word, as Rust `u32` wrapping does. -/
def w32 (n : Nat) : Nat := n % 4294967296

/-- Left rotation of a 32-bit word (operands assumed below `2^32`). -/
def rotl32 (x n : Nat) : Nat := w32 (x <<< n) ||| (x >>> (32 - n))

/-- Right rotation of a 32-bit word (operands assumed below `2^32`). -/
def rotr32 (x n : Nat) : Nat := (x >>> n) ||| w32 (x <<< (32 - n))

/-- Split a list into consecutive chunks of `n` elements (last may be short). -/
def listChunks (n : Nat) (l : List Nat) : List (List Nat) :=
  (List.range ((l.length + n - 1) / n)).map fun i => (l.drop (n * i)).take n

/-- Little-endian word from four bytes. -/
def leWord (b0 b1 b2 b3 : Nat) : Nat :=
  b0 + 256 * b1 + 65536 * b2 + 16777216 * b3

/-- Big-endian word from four bytes. -/
def beWord (b0 b1 b2 b3 : Nat) : Nat :=
  b3 + 256 * b2 + 65536 * b1 + 16777216 * b0

/-- Interpret a byte list as little-endian 32-bit words. -/
def bytesToWordsLE (l : List Nat) : List Nat :=
  (List.range (l.length / 4)).map fun i =>
    leWord (l.getD (4 * i) 0) (l.getD (4 * i + 1) 0)
      (l.getD (4 * i + 2) 0) (l.getD (4 * i + 3) 0)

/-- Interpret a byte list as big-endian 32-bit words. -/
def bytesToWordsBE (l : List Nat) : List Nat :=
  (List.range (l.length / 4)).map fun i =>
    beWord (l.getD (4 * i) 0) (l.getD (4 * i + 1) 0)
      (l.getD (4 * i + 2) 0) (l.getD (4 * i + 3) 0)

/-- Big-endian bytes of a 32-bit word. -/
def wordBytesBE (w : Nat) : List Nat :=
  [(w >>> 24) % 256, (w >>> 16) % 256, (w >>> 8) % 256, w % 256]

/-- Eight little-endian bytes of a 64-bit value. -/
def le64Bytes (n : Nat) : List Nat :=
  (List.range 8).map fun i => (n >>> (8 * i)) % 256

/-- Eight big-endian bytes of a 64-bit value. -/
def be64Bytes (n : Nat) : List Nat :=
  (List.range 8).map fun i => (n >>> (8 * (7 - i))) % 256

/-- Little-endian `u16` of the first two bytes of a list, as
`byteorder::LittleEndian::read_u16` computes it. -/
def leU16 (l : List Nat) : Nat := l.getD 0 0 + 256 * l.getD 1 0

/-! ## SHA-256 (the `sha2` crate as used by `Beacon::new`) -/

/-- The 64 SHA-256 round constants. -/
def sha256K : List Nat :=
  [1116352408, 1899447441, 3049323471, 3921009573, 961987163, 1508970993,
   2453635748, 2870763221, 3624381080, 310598401, 607225278, 1426881987,
   1925078388, 2162078206, 2614888103, 3248222580, 3835390401, 4022224774,
   264347078, 604807628, 770255983, 1249150122, 1555081692, 1996064986,
   2554220882, 2821834349, 2952996808, 3210313671, 3336571891, 3584528711,
   113926993, 338241895, 666307205, 773529912, 1294757372, 1396182291,
   1695183700, 1986661051, 2177026350, 2456956037, 2730485921, 2820302411,
   3259730800, 3345764771, 3516065817, 3600352804, 4094571909, 275423344,
   430227734, 506948616, 659060556, 883997877, 958139571, 1322822218,
   1537002063, 1747873779, 1955562222, 2024104815, 2227730452, 2361852424,
   2428436474, 2756734187, 3204031479, 3329325298]

/-- The SHA-256 initial hash state. -/
def sha256H0 : List Nat :=
  [1779033703, 3144134277, 1013904242, 2773480762,
   1359893119, 2600822924, 528734635, 1541459225]

def sha256SmallSigma0 (x : Nat) : Nat := rotr32 x 7 ^^^ rotr32 x 18 ^^^ (x >>> 3)

def sha256SmallSigma1 (x : Nat) : Nat := rotr32 x 17 ^^^ rotr32 x 19 ^^^ (x >>> 10)

def sha256BigSigma0 (x : Nat) : Nat := rotr32 x 2 ^^^ rotr32 x 13 ^^^ rotr32 x 22

def sha256BigSigma1 (x : Nat) : Nat := rotr32 x 6 ^^^ rotr32 x 11 ^^^ rotr32 x 25

def sha256Ch (x y z : Nat) : Nat := (x &&& y) ^^^ ((x ^^^ 4294967295) &&& z)

def sha256Maj (x y z : Nat) : Nat := (x &&& y) ^^^ (x &&& z) ^^^ (y &&& z)

/-- SHA-256 padding: a `0x80` byte, zeros to 56 mod 64, then the bit length
as eight big-endian bytes. -/
def sha256Pad (msg : List Nat) : List Nat :=
  let l := msg.length
  let k := (64 + 55 - l % 64) % 64
  msg ++ [128] ++ List.replicate k 0 ++ be64Bytes (8 * l)

/-- The 64-entry message schedule of one 16-word block. -/
def sha256Schedule (block : List Nat) : List Nat :=
  (List.range 64).foldl
    (fun ws i =>
      if i < 16 then ws ++ [block.getD i 0]
      else ws ++ [w32 (sha256SmallSigma1 (ws.getD (i - 2) 0) + ws.getD (i - 7) 0 +
        sha256SmallSigma0 (ws.getD (i - 15) 0) + ws.getD (i - 16) 0)])
    []

/-- One SHA-256 compression step over the eight working variables. -/
def sha256Round (ws : List Nat) (s : Nat × Nat × Nat × Nat × Nat × Nat × Nat × Nat)
    (i : Nat) : Nat × Nat × Nat × Nat × Nat × Nat × Nat × Nat :=
  match s with
  | (a, b, c, d, e, f, g, h) =>
    let t1 := w32 (h + sha256BigSigma1 e + sha256Ch e f g + sha256K.getD i 0 + ws.getD i 0)
    let t2 := w32 (sha256BigSigma0 a + sha256Maj a b c)
    (w32 (t1 + t2), a, b, c, w32 (d + t1), e, f, g)

/-- SHA-256 compression of one block into the running hash state. -/
def sha256Compress (hs : List Nat) (block : List Nat) : List Nat :=
  let ws := sha256Schedule block
  let fin := (List.range 64).foldl (sha256Round ws)
    (hs.getD 0 0, hs.getD 1 0, hs.getD 2 0, hs.getD 3 0,
     hs.getD 4 0, hs.getD 5 0, hs.getD 6 0, hs.getD 7 0)
  match fin with
  | (a, b, c, d, e, f, g, h) =>
    [w32 (hs.getD 0 0 + a), w32 (hs.getD 1 0 + b), w32 (hs.getD 2 0 + c),
     w32 (hs.getD 3 0 + d), w32 (hs.getD 4 0 + e), w32 (hs.getD 5 0 + f),
     w32 (hs.getD 6 0 + g), w32 (hs.getD 7 0 + h)]

/-- SHA-256 of a byte list, producing the 32 digest bytes. -/
def sha256 (msg : List Nat) : List Nat :=
  let blocks := (listChunks 64 (sha256Pad msg)).map bytesToWordsBE
  ((blocks.foldl sha256Compress sha256H0).map wordBytesBE).flatten

/-! ## ChaCha12 (the `rand_chacha::ChaCha12Rng` CSPRNG) -/

/-- One ChaCha quarter round on state positions `ia ib ic idx`. -/
def chachaQuarter (s : List Nat) (ia ib ic idx : Nat) : List Nat :=
  let a := s.getD ia 0
  let b := s.getD ib 0
  let c := s.getD ic 0
  let d := s.getD idx 0
  let a1 := w32 (a + b)
  let d1 := rotl32 (d ^^^ a1) 16
  let c1 := w32 (c + d1)
  let b1 := rotl32 (b ^^^ c1) 12
  let a2 := w32 (a1 + b1)
  let d2 := rotl32 (d1 ^^^ a2) 8
  let c2 := w32 (c1 + d2)
  let b2 := rotl32 (b1 ^^^ c2) 7
  (((s.set ia a2).set ib b2).set ic c2).set idx d2

/-- A ChaCha double round: the four column rounds then the four diagonal
rounds. -/
def chachaDoubleRound (s : List Nat) : List Nat :=
  let s := chachaQuarter s 0 4 8 12
  let s := chachaQuarter s 1 5 9 13
  let s := chachaQuarter s 2 6 10 14
  let s := chachaQuarter s 3 7 11 15
  let s := chachaQuarter s 0 5 10 15
  let s := chachaQuarter s 1 6 11 12
  let s := chachaQuarter s 2 7 8 13
  chachaQuarter s 3 4 9 14

/-- One 16-word ChaCha12 output block for an 8-word key, zero stream id and
the given 64-bit block counter (the state `ChaCha12Rng::from_seed` sets up). -/
def chacha12Block (key : List Nat) (counter : Nat) : List Nat :=
  let st := [1634760805, 857760878, 2036477234, 1797285236] ++ key ++
    [w32 counter, w32 (counter >>> 32), 0, 0]
  let fin := (List.range 6).foldl (fun s _ => chachaDoubleRound s) st
  List.zipWith (fun a b => w32 (a + b)) fin st

/-- The first `n` 32-bit words of the ChaCha12 keystream, the successive
`next_u32` results of `ChaCha12Rng`. -/
def chacha12Words (key : List Nat) (n : Nat) : List Nat :=
  (((List.range ((n + 15) / 16)).map (chacha12Block key)).flatten).take n

/-! ## The beacon crate: errors, entropy, region params, `Beacon::new` -/

/-- The error taxonomy of `src/src/error.rs` and the beacon crate, flattened
to the variants the excerpted core can produce. -/
inductive Error where
  | invalidVersion
  | noDataRate
  | invalidBeaconDataRate (datarate : Nat)
  | noRegionTxPower
  | noRegionParams
  | invalidEnvelope
  | streamClosed
  | channelClosed
  | noService
  | rpc (status : Nat)
  | cryptoError
  | systemTime
deriving DecidableEq, Inhabited

/-- LoRa datarates (`helium_proto::DataRate`, external), restricted to the
spreading-factor/bandwidth combinations the region tables use. -/
inductive DataRate where
  | sf7bw125
  | sf8bw125
  | sf9bw125
  | sf10bw125
  | sf11bw125
  | sf12bw125
  | sf12bw500
deriving DecidableEq, Inhabited

/-- A versioned, timestamped entropy value.  Modelled from the spec: the
beacon crate's entropy module is not part of the excerpt; the spec describes
an opaque byte string with a version tag and a timestamp. -/
structure Entropy where
  version : Nat
  data : List Nat
  timestamp : Nat
deriving DecidableEq, Inhabited

/-- Modelled from the spec: `Entropy::digest` (entropy module, outside the
excerpt) feeds the hasher `data` then `timestamp` in a stable encoding; the
timestamp is taken as eight little-endian bytes. -/
def Entropy.digest (e : Entropy) : List Nat :=
  e.data ++ le64Bytes e.timestamp

/-- Modelled from the spec: one per-channel parameter record
`{channel_frequency, bandwidth, max_eirp, …}` of a region, with the
spreading-factor table `(max packet size, spreading factor)` folded in. -/
structure Param where
  channel_frequency : Nat
  bandwidth : Nat
  max_eirp : Int
  spreading : List (Nat × Nat)
deriving DecidableEq, Inhabited

/-- Modelled from the spec: a region identifier plus the ordered sequence of
per-channel parameter records (the beacon crate's region module is outside
the excerpt). -/
structure RegionParams where
  region : Nat
  params : List Param
deriving DecidableEq, Inhabited

/-- Modelled from the spec: map a spreading factor and bandwidth to a
`DataRate`, failing with `InvalidBeaconDataRate` on a combination outside
the table. -/
def datarateFromSpreading (sf bw : Nat) : Except Error DataRate :=
  match sf, bw with
  | 7, 125000 => .ok .sf7bw125
  | 8, 125000 => .ok .sf8bw125
  | 9, 125000 => .ok .sf9bw125
  | 10, 125000 => .ok .sf10bw125
  | 11, 125000 => .ok .sf11bw125
  | 12, 125000 => .ok .sf12bw125
  | 12, 500000 => .ok .sf12bw500
  | sf, _ => .error (.invalidBeaconDataRate sf)

/-- Modelled from the spec: `select_datarate(size)` maps a payload size to a
datarate via the spreading-factor/bandwidth rules encoded in the region
parameters, and fails with `NoDataRate` when the parameter list is empty or
no spreading entry admits the payload size. -/
def RegionParams.select_datarate (rp : RegionParams) (size : Nat) :
    Except Error DataRate :=
  match rp.params.head? with
  | none => .error .noDataRate
  | some p =>
    match p.spreading.find? (fun t => decide (size ≤ t.1)) with
    | none => .error .noDataRate
    | some t => datarateFromSpreading t.2 p.bandwidth

/-- Modelled from the spec: `max_conducted_power()` returns a non-negative
integer derived from the largest `max_eirp` (given in deci-dBm) or fails
with `NoRegionTxPower` when there are no parameters. -/
def RegionParams.max_conducted_power (rp : RegionParams) : Except Error Nat :=
  match (rp.params.map fun p => p.max_eirp).max? with
  | none => .error .noRegionTxPower
  | some e => .ok (e / 10).toNat

/-- The `BEACON_PAYLOAD_SIZE` from `beacon.rs`. -/
def BEACON_PAYLOAD_SIZE : Nat := 51

/-- The `rand_payload` from `beacon.rs`: draw `size` bytes from the CSPRNG.
`rand`'s `Standard` distribution samples a `u8` as the low byte of one
`next_u32` draw. -/
def rand_payload (key : List Nat) (size : Nat) : List Nat :=
  (chacha12Words key size).map fun w => w % 256

/-- The beacon value type of `beacon.rs`. -/
structure Beacon where
  data : List Nat
  frequency : Nat
  datarate : DataRate
  remote_entropy : Entropy
  local_entropy : Entropy
  conducted_power : Nat
deriving DecidableEq, Inhabited

/-- The tail of the version-0/1 arm of `Beacon::new`, over the drawn payload
`data`: select the frequency from the first two payload bytes, the datarate
from the payload size, the conducted power from the region parameters.  The
`none` result models the Rust panic: with an empty parameter list the code
computes `freq_seed % region_params.params.len()`, a remainder by zero. -/
def beaconFromData (data : List Nat) (remote_entropy local_entropy : Entropy)
    (region_params : RegionParams) : Option (Except Error Beacon) :=
  if h : region_params.params.length = 0 then
    none
  else
    match region_params.select_datarate data.length with
    | .error e => some (.error e)
    | .ok datarate =>
      match region_params.max_conducted_power with
      | .error e => some (.error e)
      | .ok conducted_power =>
        some (.ok ⟨data,
          (region_params.params.get
            ⟨leU16 data % region_params.params.length,
              Nat.mod_lt _ (Nat.pos_of_ne_zero h)⟩).channel_frequency,
          datarate, remote_entropy, local_entropy, conducted_power⟩)

/-- The version-0/1 arm of `Beacon::new`: hash the two entropy digests into
a 32-byte seed, draw the 51-byte payload from a ChaCha12 CSPRNG seeded with
it, then derive frequency, datarate and conducted power via
`beaconFromData`. -/
def Beacon.newV01 (remote_entropy local_entropy : Entropy)
    (region_params : RegionParams) : Option (Except Error Beacon) :=
  beaconFromData
    (rand_payload
      (bytesToWordsLE (sha256 (remote_entropy.digest ++ local_entropy.digest)))
      BEACON_PAYLOAD_SIZE)
    remote_entropy local_entropy region_params

/-- The `Beacon::new` from `beacon.rs`: match on `remote_entropy.version`; the
`0 | 1` arm builds the beacon, every other version is rejected with
`InvalidVersion`.  The local entropy's version is not inspected. -/
def Beacon.new (remote_entropy local_entropy : Entropy)
    (region_params : RegionParams) : Option (Except Error Beacon) :=
  match remote_entropy.version with
  | 0 | 1 => Beacon.newV01 remote_entropy local_entropy region_params
  | _ => some (.error .invalidVersion)

/-! ## Region watcher (`src/src/region_watcher.rs`) -/

/-- The `REGION_BACKOFF_RETRIES` from `region_watcher.rs`. -/
def REGION_BACKOFF_RETRIES : Nat := 10

/-- The state the region watcher's `run` loop mutates: the `request_retry`
counter and the current value held by the `watch` channel. -/
structure WatcherState where
  request_retry : Nat
  watch : RegionParams
deriving DecidableEq

/-- The state of `RegionWatcher::new`: `request_retry` starts at 1 and the
watch channel is seeded with the configured region's default parameters. -/
def WatcherState.new (default_params : RegionParams) : WatcherState :=
  ⟨1, default_params⟩

/-- One iteration of the `run` loop's `check_region` match arm, applied to
the outcome of the fetch: an error feeds the retry counter (reset to 1 past
the retry budget, otherwise advance capped at the budget), a
shutdown-interrupted fetch (`Ok(None)`) changes nothing, and a fetched value
sets the counter past the budget and publishes the value when it differs
from the current one. -/
def watcherStep (s : WatcherState) (res : Except Error (Option RegionParams)) :
    WatcherState :=
  match res with
  | .error _ =>
    { s with request_retry :=
        if s.request_retry > REGION_BACKOFF_RETRIES then 1
        else min (s.request_retry + 1) REGION_BACKOFF_RETRIES }
  | .ok none => s
  | .ok (some remote_params) =>
    { request_retry := REGION_BACKOFF_RETRIES + 1,
      watch := if remote_params ≠ s.watch then remote_params else s.watch }

/-- The `RegionWatcher::check_region` (config-service mode): the `select!` races
the shutdown listener against the `region_params` RPC; a fired shutdown
yields `Ok(None)`, otherwise the RPC response is passed through with `Some`.
The RPC itself is external, so its outcome is an oracle argument. -/
def check_region (shutdownTriggered : Bool)
    (response : Except Error RegionParams) :
    Except Error (Option RegionParams) :=
  if shutdownTriggered then .ok none else response.map some

/-- One full iteration of `RegionWatcher::run`'s fetch branch: run
`check_region` and fold its outcome into the watcher state. -/
def runIteration (s : WatcherState) (shutdownTriggered : Bool)
    (response : Except Error RegionParams) : WatcherState :=
  watcherStep s (check_region shutdownTriggered response)

/-! ## Protobuf encoding and message signing (`src/src/traits/msg_sign.rs`) -/

/-- Protobuf base-128 varint bytes of a natural number. -/
def pbVarint (n : Nat) : List Nat :=
  if h : n < 128 then [n]
  else (n % 128 + 128) :: pbVarint (n / 128)
termination_by n
decreasing_by exact Nat.div_lt_self (by omega) (by omega)

/-- Protobuf field key: field number and wire type. -/
def pbKey (fieldNum wireType : Nat) : List Nat :=
  pbVarint (8 * fieldNum + wireType)

/-- A varint-typed field; proto3 omits fields holding the default value. -/
def pbVarintField (fieldNum n : Nat) : List Nat :=
  if n = 0 then [] else pbKey fieldNum 0 ++ pbVarint n

/-- A signed 32-bit varint field, sign-extended to 64 bits as `int32` is. -/
def pbIntField (fieldNum : Nat) (v : Int) : List Nat :=
  if v = 0 then []
  else pbKey fieldNum 0 ++ pbVarint (if 0 ≤ v then v.toNat else (18446744073709551616 + v).toNat)

/-- A length-delimited bytes field; empty bytes are omitted. -/
def pbBytesField (fieldNum : Nat) (b : List Nat) : List Nat :=
  if b = [] then [] else pbKey fieldNum 2 ++ pbVarint b.length ++ b

/-- The gateway's signing identity (`helium_crypto::Keypair`, external): a
public key and a fallible signing function over byte strings. -/
structure Keypair where
  public_key : List Nat
  signFn : List Nat → Except Error (List Nat)

/-- The `PacketRouterRegisterV1` from `router.rs`: registration timestamp,
gateway public key, signature. -/
structure PacketRouterRegisterV1 where
  timestamp : Nat
  gateway : List Nat
  signature : List Nat
deriving DecidableEq, Inhabited

/-- Modelled from the spec: the protobuf encoding of
`PacketRouterRegisterV1` (generated code, external). -/
def PacketRouterRegisterV1.encode_to_vec (m : PacketRouterRegisterV1) : List Nat :=
  pbVarintField 1 m.timestamp ++ pbBytesField 2 m.gateway ++ pbBytesField 3 m.signature

/-- The `MsgSign` instance for `PacketRouterRegisterV1` (from the `impl_msg_sign!` macro):
clone, blank the `signature` field, encode, sign the encoded bytes. -/
def PacketRouterRegisterV1.sign (m : PacketRouterRegisterV1) (keypair : Keypair) :
    Except Error (List Nat) :=
  let txn := { m with signature := [] }
  keypair.signFn txn.encode_to_vec

/-- Modelled from the spec: `PacketRouterPacketUpV1`, an uplink packet
report with a single `signature` field (protobuf definition external). -/
structure PacketRouterPacketUpV1 where
  payload : List Nat
  timestamp : Nat
  rssi : Int
  frequency : Nat
  datarate : Nat
  snr : Int
  region : Nat
  hold_time : Nat
  gateway : List Nat
  signature : List Nat
deriving DecidableEq, Inhabited

/-- Modelled from the spec: protobuf encoding of `PacketRouterPacketUpV1`. -/
def PacketRouterPacketUpV1.encode_to_vec (m : PacketRouterPacketUpV1) : List Nat :=
  pbBytesField 1 m.payload ++ pbVarintField 2 m.timestamp ++ pbIntField 3 m.rssi ++
  pbVarintField 4 m.frequency ++ pbVarintField 5 m.datarate ++ pbIntField 6 m.snr ++
  pbVarintField 7 m.region ++ pbVarintField 8 m.hold_time ++
  pbBytesField 9 m.gateway ++ pbBytesField 10 m.signature

/-- The `MsgSign` instance for `PacketRouterPacketUpV1`: blank `signature`, encode, sign. -/
def PacketRouterPacketUpV1.sign (m : PacketRouterPacketUpV1) (keypair : Keypair) :
    Except Error (List Nat) :=
  let txn := { m with signature := [] }
  keypair.signFn txn.encode_to_vec

/-- Modelled from the spec: `BlockchainTxnAddGatewayV1`, the gateway-add
transaction with three distinct signature fields (protobuf external). -/
structure BlockchainTxnAddGatewayV1 where
  owner : List Nat
  gateway : List Nat
  owner_signature : List Nat
  gateway_signature : List Nat
  payer : List Nat
  payer_signature : List Nat
  staking_fee : Nat
  fee : Nat
deriving DecidableEq, Inhabited

/-- Modelled from the spec: protobuf encoding of `BlockchainTxnAddGatewayV1`. -/
def BlockchainTxnAddGatewayV1.encode_to_vec (m : BlockchainTxnAddGatewayV1) : List Nat :=
  pbBytesField 1 m.owner ++ pbBytesField 2 m.gateway ++
  pbBytesField 3 m.owner_signature ++ pbBytesField 4 m.gateway_signature ++
  pbBytesField 5 m.payer ++ pbBytesField 6 m.payer_signature ++
  pbVarintField 7 m.staking_fee ++ pbVarintField 8 m.fee

/-- The `MsgSign` instance for `BlockchainTxnAddGatewayV1`: blank the three signature
fields `owner_signature`, `payer_signature`, `gateway_signature`, encode,
sign. -/
def BlockchainTxnAddGatewayV1.sign (m : BlockchainTxnAddGatewayV1) (keypair : Keypair) :
    Except Error (List Nat) :=
  let txn := { m with
    owner_signature := [], payer_signature := [], gateway_signature := [] }
  keypair.signFn txn.encode_to_vec

/-- Modelled from the spec: `iot_config::GatewayRegionParamsReqV1`, the
region-parameter request with a single `signature` field. -/
structure GatewayRegionParamsReqV1 where
  region : Nat
  address : List Nat
  signature : List Nat
deriving DecidableEq, Inhabited

/-- Modelled from the spec: protobuf encoding of `GatewayRegionParamsReqV1`. -/
def GatewayRegionParamsReqV1.encode_to_vec (m : GatewayRegionParamsReqV1) : List Nat :=
  pbVarintField 1 m.region ++ pbBytesField 2 m.address ++ pbBytesField 3 m.signature

/-- The `MsgSign` instance for `GatewayRegionParamsReqV1`: blank `signature`, encode, sign. -/
def GatewayRegionParamsReqV1.sign (m : GatewayRegionParamsReqV1) (keypair : Keypair) :
    Except Error (List Nat) :=
  let txn := { m with signature := [] }
  keypair.signFn txn.encode_to_vec

/-- The `poc_lora::LoraBeaconReportReqV1` with the fields populated by the
`TryFrom<Beacon>` conversion in `beacon.rs` (protobuf definition external,
field list taken from that conversion). -/
structure LoraBeaconReportReqV1 where
  pub_key : List Nat
  local_entropy : List Nat
  remote_entropy : List Nat
  data : List Nat
  frequency : Nat
  channel : Int
  datarate : Int
  tmst : Nat
  tx_power : Int
  timestamp : Nat
  signature : List Nat
deriving DecidableEq, Inhabited

/-- Modelled from the spec: protobuf encoding of `LoraBeaconReportReqV1`. -/
def LoraBeaconReportReqV1.encode_to_vec (m : LoraBeaconReportReqV1) : List Nat :=
  pbBytesField 1 m.pub_key ++ pbBytesField 2 m.local_entropy ++
  pbBytesField 3 m.remote_entropy ++ pbBytesField 4 m.data ++
  pbVarintField 5 m.frequency ++ pbIntField 6 m.channel ++
  pbIntField 7 m.datarate ++ pbVarintField 8 m.tmst ++ pbIntField 9 m.tx_power ++
  pbVarintField 10 m.timestamp ++ pbBytesField 11 m.signature

/-- The `MsgSign` instance for `LoraBeaconReportReqV1`: blank `signature`, encode, sign. -/
def LoraBeaconReportReqV1.sign (m : LoraBeaconReportReqV1) (keypair : Keypair) :
    Except Error (List Nat) :=
  let txn := { m with signature := [] }
  keypair.signFn txn.encode_to_vec

/-- Modelled from the spec: `poc_lora::LoraWitnessReportReqV1`, the witness
report with a single `signature` field. -/
structure LoraWitnessReportReqV1 where
  pub_key : List Nat
  data : List Nat
  timestamp : Nat
  tmst : Nat
  signal : Int
  snr : Int
  frequency : Nat
  datarate : Int
  signature : List Nat
deriving DecidableEq, Inhabited

/-- Modelled from the spec: protobuf encoding of `LoraWitnessReportReqV1`. -/
def LoraWitnessReportReqV1.encode_to_vec (m : LoraWitnessReportReqV1) : List Nat :=
  pbBytesField 1 m.pub_key ++ pbBytesField 2 m.data ++ pbVarintField 3 m.timestamp ++
  pbVarintField 4 m.tmst ++ pbIntField 5 m.signal ++ pbIntField 6 m.snr ++
  pbVarintField 7 m.frequency ++ pbIntField 8 m.datarate ++ pbBytesField 9 m.signature

/-- The `MsgSign` instance for `LoraWitnessReportReqV1`: blank `signature`, encode, sign. -/
def LoraWitnessReportReqV1.sign (m : LoraWitnessReportReqV1) (keypair : Keypair) :
    Except Error (List Nat) :=
  let txn := { m with signature := [] }
  keypair.signFn txn.encode_to_vec

/-! ## Router service (`src/src/service/router.rs`) -/

/-- Modelled from the spec: `PacketRouterPacketDownV1`, the downlink packet
(protobuf definition external; its content is opaque to the conduit). -/
structure PacketRouterPacketDownV1 where
  payload : List Nat
deriving DecidableEq, Inhabited

/-- The `oneof` payload of an upstream envelope `EnvelopeUpV1`. -/
inductive EnvelopeUpData where
  | packet (p : PacketRouterPacketUpV1)
  | register (r : PacketRouterRegisterV1)
deriving DecidableEq

/-- The `oneof` payload of a downstream envelope `EnvelopeDownV1`; the code
pattern-matches `Packet` and treats an unset payload as an unknown variant. -/
inductive EnvelopeDownData where
  | packet (p : PacketRouterPacketDownV1)
deriving DecidableEq

def EnvelopeUpData.isPacket : EnvelopeUpData → Bool
  | .packet _ => true
  | .register _ => false

def EnvelopeUpData.isRegister : EnvelopeUpData → Bool
  | .packet _ => false
  | .register _ => true

/-- A router conduit, observed through the sequence of upstream envelopes
that have been pushed onto its bounded sender, oldest first.  (The
downstream receiver is consumed through the `RecvOutcome` oracle.) -/
structure RouterConduit where
  tx_sent : List EnvelopeUpData
deriving DecidableEq

/-- The `RouterService` from `router.rs`: the target uri, the optional conduit
and the signing keypair. -/
structure RouterService where
  uri : List Nat
  conduit : Option RouterConduit
  keypair : Keypair

/-- The `RouterService::new`: lazy — no conduit is opened on construction. -/
def RouterService.new (uri : List Nat) (keypair : Keypair) : RouterService :=
  ⟨uri, none, keypair⟩

/-- What one `self.rx.message().await` call on the downstream stream yields:
a decoded envelope whose `oneof` payload may be unset, a clean end of
stream, or an RPC error. -/
inductive RecvOutcome where
  | msg (d : Option EnvelopeDownData)
  | closed
  | rpcErr (status : Nat)

/-- The `RouterConduit::recv`: a `Packet` envelope yields the packet, an unset
payload is an unknown variant and yields `InvalidEnvelope`, a closed stream
yields `None`, an RPC error is propagated. -/
def RouterConduit.recv (o : RecvOutcome) :
    Except Error (Option PacketRouterPacketDownV1) :=
  match o with
  | .msg (some (.packet p)) => .ok (some p)
  | .msg none => .error .invalidEnvelope
  | .closed => .ok none
  | .rpcErr status => .error (.rpc status)

/-- The `RouterConduit::register`: build `PacketRouterRegisterV1` with the
current time, the gateway public key and an empty signature, sign it, write
the signature back, and push the `Register` envelope onto the sender.
`pushOk` is the oracle for the sender being alive. -/
def RouterConduit.register (c : RouterConduit) (keypair : Keypair) (now : Nat)
    (pushOk : Bool) : RouterConduit × Except Error Unit :=
  match (⟨now, keypair.public_key, []⟩ : PacketRouterRegisterV1).sign keypair with
  | .error e => (c, .error e)
  | .ok sig =>
    if pushOk then
      ({ c with tx_sent := c.tx_sent ++ [.register ⟨now, keypair.public_key, sig⟩] },
        .ok ())
    else (c, .error .streamClosed)

/-- The `RouterConduit::send`: wrap the packet in an `Uplink{Packet}` envelope
and push it onto the sender. -/
def RouterConduit.send (c : RouterConduit) (msg : PacketRouterPacketUpV1)
    (pushOk : Bool) : RouterConduit × Except Error Unit :=
  if pushOk then
    ({ c with tx_sent := c.tx_sent ++ [.packet msg] }, .ok ())
  else (c, .error .streamClosed)

/-- The `RouterService::connect`: open a fresh conduit (the `route` RPC is
external, `newOk` is its oracle), send the signed register on it, and only
then store it; on any failure the stored conduit field is left unchanged. -/
def RouterService.connect (s : RouterService) (newOk : Bool) (now : Nat)
    (pushOk : Bool) : RouterService × Except Error Unit :=
  if newOk then
    match RouterConduit.register ⟨[]⟩ s.keypair now pushOk with
    | (c, .ok ()) => ({ s with conduit := some c }, .ok ())
    | (_, .error e) => (s, .error e)
  else (s, .error .noService)

/-- The `RouterService::disconnect`: drop the conduit. -/
def RouterService.disconnect (s : RouterService) : RouterService :=
  { s with conduit := none }

/-- The tail of `RouterService::send` once a conduit `c` is stored in
`s1`: push the packet envelope; on success keep the updated conduit, on any
push error run `self.disconnect()` and propagate the error. -/
def RouterService.sendPacket (s1 : RouterService) (c : RouterConduit)
    (msg : PacketRouterPacketUpV1) (pushOk : Bool) :
    Option (RouterService × Except Error Unit) :=
  match c.send msg pushOk with
  | (c1, .ok ()) => some ({ s1 with conduit := some c1 }, .ok ())
  | (_, .error e) => some (s1.disconnect, .error e)

/-- The `RouterService::send`: connect first when disconnected (propagating a
connect failure), then push the packet through the stored conduit.  The
`none` result models the Rust `unwrap` panic, which is unreachable because
a successful connect always stores a conduit. -/
def RouterService.send (s : RouterService) (msg : PacketRouterPacketUpV1)
    (newOk : Bool) (now : Nat) (pushRegOk pushOk : Bool) :
    Option (RouterService × Except Error Unit) :=
  match s.conduit with
  | some c => s.sendPacket c msg pushOk
  | none =>
    match s.connect newOk now pushRegOk with
    | (s1, .error e) => some (s1, .error e)
    | (s1, .ok ()) =>
      match s1.conduit with
      | none => none
      | some c => s1.sendPacket c msg pushOk

/-- The `RouterService::recv`: while disconnected the call awaits
`futures::future::pending()` and never returns, modelled as `none`;
otherwise one downstream envelope is read, and every outcome other than
`Ok(Some(packet))` drops the conduit. -/
def RouterService.recv (s : RouterService) (o : RecvOutcome) :
    Option (RouterService × Except Error (Option PacketRouterPacketDownV1)) :=
  match s.conduit with
  | none => none
  | some _ =>
    match RouterConduit.recv o with
    | .ok (some m) => some (s, .ok (some m))
    | .ok none => some (s.disconnect, .ok none)
    | .error e => some (s.disconnect, .error e)

/-- The `RouterService::reconnect`: `disconnect` then `connect`. -/
def RouterService.reconnect (s : RouterService) (newOk : Bool) (now : Nat)
    (pushOk : Bool) : RouterService × Except Error Unit :=
  s.disconnect.connect newOk now pushOk

/-- The states a `RouterService` can actually be in: the constructed state,
closed under the five public operations with arbitrary environment
outcomes. -/
inductive Reachable : RouterService → Prop
  | of_new (uri : List Nat) (kp : Keypair) : Reachable (RouterService.new uri kp)
  | of_connect {s s' : RouterService} {r : Except Error Unit}
      (hs : Reachable s) (newOk : Bool) (now : Nat) (pushOk : Bool)
      (h : s.connect newOk now pushOk = (s', r)) : Reachable s'
  | of_send {s s' : RouterService} {r : Except Error Unit}
      (hs : Reachable s) (msg : PacketRouterPacketUpV1) (newOk : Bool)
      (now : Nat) (pushRegOk pushOk : Bool)
      (h : s.send msg newOk now pushRegOk pushOk = some (s', r)) : Reachable s'
  | of_recv {s s' : RouterService} {r : Except Error (Option PacketRouterPacketDownV1)}
      (hs : Reachable s) (o : RecvOutcome)
      (h : s.recv o = some (s', r)) : Reachable s'
  | of_disconnect {s : RouterService} (hs : Reachable s) : Reachable s.disconnect
  | of_reconnect {s s' : RouterService} {r : Except Error Unit}
      (hs : Reachable s) (newOk : Bool) (now : Nat) (pushOk : Bool)
      (h : s.reconnect newOk now pushOk = (s', r)) : Reachable s'

/-- A register envelope has been pushed before any packet envelope: every
packet in the pushed sequence is preceded by a register. -/
def registerFirst (l : List EnvelopeUpData) : Prop :=
  ∀ i (hi : i < l.length), (l.get ⟨i, hi⟩).isPacket = true →
    ∃ j, ∃ hj : j < l.length, j < i ∧ (l.get ⟨j, hj⟩).isRegister = true

/-- The head-shape invariant actually maintained by the code: a stored
conduit's pushed sequence starts with a register envelope. -/
def headRegister (l : List EnvelopeUpData) : Prop :=
  ∃ r rest, l = .register r :: rest

/-! ## Concrete scenario inputs (the spec's literal seeds) -/

/-- S1 remote entropy: version 1, 32 zero bytes, timestamp 0. -/
def entropyS1Remote : Entropy := ⟨1, List.replicate 32 0, 0⟩

/-- S1 local entropy: version 1, 32 `0xFF` bytes, timestamp 0. -/
def entropyS1Local : Entropy := ⟨1, List.replicate 32 255, 0⟩

/-- S2 remote entropy: version 0, 32 zero bytes, timestamp 0. -/
def entropyRemoteV0 : Entropy := ⟨0, List.replicate 32 0, 0⟩

/-- S1 region parameters: eight channels `902.3 MHz + 200 kHz * i`,
125 kHz bandwidth, 36 dBm EIRP (in deci-dBm), and a spreading table
admitting the 51-byte beacon payload. -/
def regionParamsS1 : RegionParams :=
  ⟨0, (List.range 8).map fun i =>
    ⟨902300000 + 200000 * i, 125000, 360, [(23, 10), (51, 9)]⟩⟩

/-- The beacon `Beacon::new` produces on the S1 seeds. -/
def beaconS1 : Beacon :=
  match Beacon.new entropyS1Remote entropyS1Local regionParamsS1 with
  | some (.ok b) => b
  | _ => default

set_option maxRecDepth 200000 in
/-- On the S1 seeds, `Beacon::new` succeeds with `beaconS1`. -/
theorem beaconS1_eval :
    Beacon.new entropyS1Remote entropyS1Local regionParamsS1 = some (.ok beaconS1) := rfl

/-! ## Claims about the beacon generator -/

set_option maxRecDepth 200000 in
/-- C1.  The claim states that `Beacon::new` fails with `InvalidVersion`
whenever `remote_entropy.version != local_entropy.version`, in particular on
`remote.version = 0`, `local.version = 1`.  The code matches only on
`remote_entropy.version` and never inspects the local version — contrary to
its own doc comment ("The remote and local entropy are checked for version
equality"): at the claimed failing input it succeeds and returns a
beacon. -/
theorem beacon_new_accepts_version_mismatch :
    entropyRemoteV0.version = 0 ∧ entropyS1Local.version = 1 ∧
      ∃ b, Beacon.new entropyRemoteV0 entropyS1Local regionParamsS1 = some (.ok b) :=
  ⟨rfl, rfl, ⟨_, rfl⟩⟩

/-- C2 counterexample.  The claim states that with an accepted version and
empty `params`, `Beacon::new` returns the `NoDataRate` error and does not
panic.  On the S1 entropies with `params = []` the code panics (remainder by
zero in the frequency-index computation, modelled as `none`) and in
particular does not return `NoDataRate`. -/
theorem beacon_new_empty_params_counterexample :
    Beacon.new entropyS1Remote entropyS1Local ⟨0, []⟩ = none ∧
      Beacon.new entropyS1Remote entropyS1Local ⟨0, []⟩ ≠
        some (.error .noDataRate) := by
  constructor
  · rfl
  · intro h
    rw [show Beacon.new entropyS1Remote entropyS1Local ⟨0, []⟩ = none from rfl] at h
    exact Option.noConfusion h

/-- C2 (amended).  For every pair of entropies with an accepted version, if
`region_params.params` is empty then `Beacon::new` does not return a beacon
or an error: it panics at the remainder-by-zero in the frequency-index
computation, before `select_datarate` is consulted. -/
theorem beacon_new_empty_params_panics (re le : Entropy) (rp : RegionParams)
    (hv : re.version = 0 ∨ re.version = 1) (hp : rp.params = []) :
    Beacon.new re le rp = none := by
  have hb : ∀ data : List Nat, beaconFromData data re le rp = none := by
    obtain ⟨reg, ps⟩ := rp
    change ps = [] at hp
    subst hp
    intro data
    rfl
  unfold Beacon.new
  rcases hv with h | h <;> rw [h] <;> exact hb _

/-- C2 witness: the amended statement at a concrete accepted-version input
with empty parameters. -/
theorem beacon_new_empty_params_panics_witness :
    Beacon.new entropyRemoteV0 entropyS1Local ⟨0, []⟩ = none :=
  beacon_new_empty_params_panics entropyRemoteV0 entropyS1Local ⟨0, []⟩ (Or.inl rfl) rfl

/-- C3.  `Beacon::new` is deterministic: two invocations on identical
remote entropy, local entropy and region parameters that both succeed
return beacons with identical `data`, `frequency`, `datarate` and
`conducted_power`. -/
theorem beacon_new_deterministic (re le : Entropy) (rp : RegionParams)
    (b1 b2 : Beacon)
    (h1 : Beacon.new re le rp = some (.ok b1))
    (h2 : Beacon.new re le rp = some (.ok b2)) :
    b1.data = b2.data ∧ b1.frequency = b2.frequency ∧
      b1.datarate = b2.datarate ∧ b1.conducted_power = b2.conducted_power := by
  rw [h1] at h2
  simp only [Option.some.injEq, Except.ok.injEq] at h2
  subst h2
  exact ⟨rfl, rfl, rfl, rfl⟩

/-- C3 witness: determinism instantiated on the S1 seeds, both hypotheses
discharged by evaluating `Beacon::new` there. -/
theorem beacon_new_deterministic_witness :
    beaconS1.data = beaconS1.data ∧ beaconS1.frequency = beaconS1.frequency ∧
      beaconS1.datarate = beaconS1.datarate ∧
      beaconS1.conducted_power = beaconS1.conducted_power :=
  beacon_new_deterministic entropyS1Remote entropyS1Local regionParamsS1
    beaconS1 beaconS1 beaconS1_eval beaconS1_eval

/-- The `List.getD` at an in-range index is `List.get`. -/
theorem listGetD_of_lt {α : Type} [Inhabited α] (l : List α) (i : Nat)
    (h : i < l.length) : l.getD i default = l.get ⟨i, h⟩ := by
  simp [List.getD_eq_getElem?_getD, List.getElem?_eq_getElem h, List.get_eq_getElem]

/-- Any beacon produced by `beaconFromData` carries the frequency of the
parameter record indexed by the little-endian `u16` of its first two
payload bytes, reduced modulo the parameter count. -/
theorem beaconFromData_ok_frequency {data : List Nat} {re le : Entropy}
    {rp : RegionParams} {b : Beacon}
    (h : beaconFromData data re le rp = some (.ok b)) :
    0 < rp.params.length ∧
      b.frequency =
        (rp.params.getD (leU16 b.data % rp.params.length) default).channel_frequency := by
  unfold beaconFromData at h
  split at h
  · exact Option.noConfusion h
  · rename_i hlen
    split at h
    · simp at h
    · split at h
      · simp at h
      · simp only [Option.some.injEq, Except.ok.injEq] at h
        subst h
        refine ⟨Nat.pos_of_ne_zero hlen, ?_⟩
        dsimp only
        rw [listGetD_of_lt _ _ (Nat.mod_lt _ (Nat.pos_of_ne_zero hlen))]

/-- C4.  Every beacon returned by `Beacon::new` satisfies
`frequency = params[u16_le(data[0..2]) mod len(params)].channel_frequency`
(and the parameter list is necessarily non-empty). -/
theorem beacon_new_frequency_derivation (re le : Entropy) (rp : RegionParams)
    (b : Beacon) (h : Beacon.new re le rp = some (.ok b)) :
    0 < rp.params.length ∧
      b.frequency =
        (rp.params.getD (leU16 b.data % rp.params.length) default).channel_frequency := by
  unfold Beacon.new at h
  split at h
  · exact beaconFromData_ok_frequency h
  · exact beaconFromData_ok_frequency h
  · simp at h

/-- C4 witness: the frequency derivation on the S1 beacon, the hypothesis
discharged by evaluating `Beacon::new` there. -/
theorem beacon_new_frequency_derivation_witness :
    0 < regionParamsS1.params.length ∧
      beaconS1.frequency =
        (regionParamsS1.params.getD
          (leU16 beaconS1.data % regionParamsS1.params.length)
          default).channel_frequency :=
  beacon_new_frequency_derivation entropyS1Remote entropyS1Local regionParamsS1
    beaconS1 beaconS1_eval

/-! ## Claims about the region watcher -/

/-- A default-region parameter record to instantiate watcher states with. -/
def regionParamsDefault : RegionParams :=
  ⟨0, [⟨902300000, 125000, 360, [(51, 9)]⟩]⟩

/-- The retry counter stays within `[1, R + 1]` across any watcher step. -/
theorem watcherStep_retry_range (s : WatcherState)
    (res : Except Error (Option RegionParams))
    (h1 : 1 ≤ s.request_retry)
    (h2 : s.request_retry ≤ REGION_BACKOFF_RETRIES + 1) :
    1 ≤ (watcherStep s res).request_retry ∧
      (watcherStep s res).request_retry ≤ REGION_BACKOFF_RETRIES + 1 := by
  rcases res with e' | op
  · simp only [watcherStep, REGION_BACKOFF_RETRIES] at *
    split <;> omega
  · rcases op with _ | p'
    · exact ⟨h1, h2⟩
    · refine ⟨?_, ?_⟩
      · show 1 ≤ REGION_BACKOFF_RETRIES + 1
        decide
      · show REGION_BACKOFF_RETRIES + 1 ≤ REGION_BACKOFF_RETRIES + 1
        decide

/-- C5.  The retry counter transitions of the region watcher's `run` loop
with `R = REGION_BACKOFF_RETRIES = 10`: a successful fetch sets
`r = R + 1`; an error resets `r = 1` when `r > R` and otherwise advances
`r = min (r + 1) R`; a shutdown-interrupted fetch (`Ok(None)`) changes
nothing; and from any `r ∈ [1, R + 1]` every step stays in `[1, R + 1]`. -/
theorem region_watcher_retry_transitions (s : WatcherState) (e : Error)
    (p : RegionParams) (res : Except Error (Option RegionParams))
    (h1 : 1 ≤ s.request_retry)
    (h2 : s.request_retry ≤ REGION_BACKOFF_RETRIES + 1) :
    (watcherStep s (.ok (some p))).request_retry = REGION_BACKOFF_RETRIES + 1 ∧
      (watcherStep s (.error e)).request_retry =
        (if REGION_BACKOFF_RETRIES < s.request_retry then 1
         else min (s.request_retry + 1) REGION_BACKOFF_RETRIES) ∧
      1 ≤ (watcherStep s res).request_retry ∧
      (watcherStep s res).request_retry ≤ REGION_BACKOFF_RETRIES + 1 ∧
      watcherStep s (.ok none) = s :=
  ⟨rfl, rfl, (watcherStep_retry_range s res h1 h2).1,
    (watcherStep_retry_range s res h1 h2).2, rfl⟩

/-- C5 witness: the transitions from the steady state `r = 11`. -/
theorem region_watcher_retry_transitions_witness :
    (watcherStep ⟨11, regionParamsDefault⟩ (.ok (some regionParamsDefault))).request_retry =
        REGION_BACKOFF_RETRIES + 1 ∧
      (watcherStep ⟨11, regionParamsDefault⟩ (.error .noService)).request_retry =
        (if REGION_BACKOFF_RETRIES < (11 : Nat) then 1
         else min (11 + 1) REGION_BACKOFF_RETRIES) ∧
      1 ≤ (watcherStep ⟨11, regionParamsDefault⟩ (.error .noService)).request_retry ∧
      (watcherStep ⟨11, regionParamsDefault⟩ (.error .noService)).request_retry ≤
        REGION_BACKOFF_RETRIES + 1 ∧
      watcherStep ⟨11, regionParamsDefault⟩ (.ok none) = ⟨11, regionParamsDefault⟩ :=
  region_watcher_retry_transitions ⟨11, regionParamsDefault⟩ .noService
    regionParamsDefault (.error .noService) (by decide) (by decide)

/-- C10.  If shutdown fires while a fetch is in flight, `check_region`
returns `Ok(None)` whatever the RPC would have answered, and the `run`
iteration leaves the watcher state unchanged: the retry counter keeps its
value and the watch channel still holds the previously published
parameters. -/
theorem region_watcher_shutdown_frame (s : WatcherState)
    (response : Except Error RegionParams) :
    check_region true response = .ok none ∧
      runIteration s true response = s ∧
      (runIteration s true response).request_retry = s.request_retry ∧
      (runIteration s true response).watch = s.watch :=
  ⟨rfl, rfl, rfl, rfl⟩

/-! ## Claim about message signing -/

/-- C7.  For every message type carrying the `MsgSign` capability, signing
is invariant under pre-blanking the designated signature field(s): `sign M`
equals `sign (M with its signature field(s) set to empty)` for every
keypair, since the macro clones the message, blanks exactly those fields,
and signs the canonical encoding of the blanked copy.  The single-field
types blank `signature`; the gateway-add transaction blanks
`owner_signature`, `payer_signature` and `gateway_signature`. -/
theorem msg_sign_blanking (kp : Keypair) :
    (∀ m : PacketRouterRegisterV1,
      m.sign kp = ({ m with signature := [] } : PacketRouterRegisterV1).sign kp) ∧
    (∀ m : PacketRouterPacketUpV1,
      m.sign kp = ({ m with signature := [] } : PacketRouterPacketUpV1).sign kp) ∧
    (∀ m : GatewayRegionParamsReqV1,
      m.sign kp = ({ m with signature := [] } : GatewayRegionParamsReqV1).sign kp) ∧
    (∀ m : LoraBeaconReportReqV1,
      m.sign kp = ({ m with signature := [] } : LoraBeaconReportReqV1).sign kp) ∧
    (∀ m : LoraWitnessReportReqV1,
      m.sign kp = ({ m with signature := [] } : LoraWitnessReportReqV1).sign kp) ∧
    (∀ m : BlockchainTxnAddGatewayV1,
      m.sign kp = ({ m with
        owner_signature := [], payer_signature := [], gateway_signature := [] } :
          BlockchainTxnAddGatewayV1).sign kp) :=
  ⟨fun _ => rfl, fun _ => rfl, fun _ => rfl, fun _ => rfl, fun _ => rfl, fun _ => rfl⟩


/-! ## Claims about the router service -/

/-- A pushed sequence whose head is a register envelope has a register
before any packet. -/
theorem headRegister_registerFirst {l : List EnvelopeUpData}
    (h : headRegister l) : registerFirst l := by
  obtain ⟨r, rest, rfl⟩ := h
  intro i hi hp
  cases i with
  | zero => simp [EnvelopeUpData.isPacket] at hp
  | succ n => exact ⟨0, Nat.succ_pos _, Nat.succ_pos n, rfl⟩

/-- The invariant maintained by the code: any stored conduit's pushed
sequence starts with a register envelope. -/
def RouterService.registerInv (s : RouterService) : Prop :=
  ∀ c, s.conduit = some c → headRegister c.tx_sent

/-- A successful `RouterConduit::register` appends exactly one register
envelope to the pushed sequence. -/
theorem register_ok_shape {c c' : RouterConduit} {kp : Keypair} {now : Nat}
    {pushOk : Bool} (h : c.register kp now pushOk = (c', .ok ())) :
    ∃ msg, c'.tx_sent = c.tx_sent ++ [.register msg] := by
  unfold RouterConduit.register at h
  split at h
  · simp at h
  · split at h
    · simp only [Prod.mk.injEq] at h
      obtain ⟨hc, _⟩ := h
      exact ⟨_, by rw [← hc]⟩
    · simp at h

/-- The `RouterConduit::send` either appends exactly one packet envelope (on
success) or leaves the conduit unchanged (on a push error). -/
theorem conduit_send_shape {c c1 : RouterConduit}
    {msg : PacketRouterPacketUpV1} {pushOk : Bool} {r : Except Error Unit}
    (h : c.send msg pushOk = (c1, r)) :
    (r = .ok () ∧ c1.tx_sent = c.tx_sent ++ [.packet msg]) ∨
      (r = .error .streamClosed ∧ c1 = c) := by
  unfold RouterConduit.send at h
  split at h
  · left
    simp only [Prod.mk.injEq] at h
    obtain ⟨hc, hr⟩ := h
    exact ⟨hr.symm, by rw [← hc]⟩
  · right
    simp only [Prod.mk.injEq] at h
    obtain ⟨hc, hr⟩ := h
    exact ⟨hr.symm, hc.symm⟩

/-- The `RouterService::connect` preserves the register invariant: the conduit
it stores has exactly the fresh register envelope pushed, and on failure
the conduit field is unchanged. -/
theorem connect_registerInv {s s' : RouterService} {r : Except Error Unit}
    (hInv : s.registerInv) (newOk : Bool) (now : Nat) (pushOk : Bool)
    (h : s.connect newOk now pushOk = (s', r)) : s'.registerInv := by
  unfold RouterService.connect at h
  split at h
  · split at h
    · rename_i c u heq
      simp only [Prod.mk.injEq] at h
      obtain ⟨hs', _⟩ := h
      subst hs'
      intro c' hc'
      simp only [Option.some.injEq] at hc'
      subst hc'
      cases u
      obtain ⟨msg, hmsg⟩ := register_ok_shape heq
      exact ⟨msg, [], by simpa using hmsg⟩
    · simp only [Prod.mk.injEq] at h
      obtain ⟨hs', _⟩ := h
      subst hs'
      exact hInv
  · simp only [Prod.mk.injEq] at h
    obtain ⟨hs', _⟩ := h
    subst hs'
    exact hInv

/-- The packet-push tail of `send` preserves the register invariant. -/
theorem sendPacket_registerInv {s1 s' : RouterService} {c : RouterConduit}
    {r : Except Error Unit} (hInv1 : s1.registerInv)
    (msg : PacketRouterPacketUpV1) (pushOk : Bool)
    (hc : s1.conduit = some c)
    (h : s1.sendPacket c msg pushOk = some (s', r)) : s'.registerInv := by
  unfold RouterService.sendPacket at h
  split at h
  · rename_i c1 u heq
    simp only [Option.some.injEq, Prod.mk.injEq] at h
    obtain ⟨hs', _⟩ := h
    subst hs'
    intro c' hc'
    simp only [Option.some.injEq] at hc'
    subst hc'
    rcases conduit_send_shape heq with ⟨_, hts⟩ | ⟨habs, _⟩
    · obtain ⟨reg, rest, hrest⟩ := hInv1 c hc
      exact ⟨reg, rest ++ [.packet msg], by rw [hts, hrest]; simp⟩
    · exact Except.noConfusion habs
  · simp only [Option.some.injEq, Prod.mk.injEq] at h
    obtain ⟨hs', _⟩ := h
    subst hs'
    intro c' hc'
    exact Option.noConfusion hc'

/-- The `RouterService::send` preserves the register invariant: packets are
appended only behind an already-pushed register, and errors drop the
conduit. -/
theorem send_registerInv {s s' : RouterService} {r : Except Error Unit}
    (hInv : s.registerInv) (msg : PacketRouterPacketUpV1) (newOk : Bool)
    (now : Nat) (pushRegOk pushOk : Bool)
    (h : s.send msg newOk now pushRegOk pushOk = some (s', r)) :
    s'.registerInv := by
  unfold RouterService.send at h
  split at h
  · rename_i heqc
    exact sendPacket_registerInv hInv msg pushOk heqc h
  · split at h
    · rename_i heq
      simp only [Option.some.injEq, Prod.mk.injEq] at h
      obtain ⟨hs', _⟩ := h
      subst hs'
      exact connect_registerInv hInv newOk now pushRegOk heq
    · rename_i heq
      split at h
      · exact Option.noConfusion h
      · rename_i heqc1
        exact sendPacket_registerInv
          (connect_registerInv hInv newOk now pushRegOk heq) msg pushOk heqc1 h

/-- The `RouterService::recv` preserves the register invariant: it never pushes
upstream, and either keeps the conduit or drops it. -/
theorem recv_registerInv {s s' : RouterService}
    {r : Except Error (Option PacketRouterPacketDownV1)}
    (hInv : s.registerInv) (o : RecvOutcome)
    (h : s.recv o = some (s', r)) : s'.registerInv := by
  unfold RouterService.recv at h
  split at h
  · exact Option.noConfusion h
  · split at h
    · simp only [Option.some.injEq, Prod.mk.injEq] at h
      obtain ⟨hs', _⟩ := h
      subst hs'
      exact hInv
    · simp only [Option.some.injEq, Prod.mk.injEq] at h
      obtain ⟨hs', _⟩ := h
      subst hs'
      intro c' hc'
      exact Option.noConfusion hc'
    · simp only [Option.some.injEq, Prod.mk.injEq] at h
      obtain ⟨hs', _⟩ := h
      subst hs'
      intro c' hc'
      exact Option.noConfusion hc'

/-- Every reachable router service state satisfies the register
invariant. -/
theorem reachable_registerInv (s : RouterService) (h : Reachable s) :
    s.registerInv := by
  induction h with
  | of_new uri kp =>
    intro c hc
    exact Option.noConfusion hc
  | of_connect hs newOk now pushOk h ih =>
    exact connect_registerInv ih newOk now pushOk h
  | of_send hs msg newOk now pushRegOk pushOk h ih =>
    exact send_registerInv ih msg newOk now pushRegOk pushOk h
  | of_recv hs o h ih =>
    exact recv_registerInv ih o h
  | of_disconnect hs ih =>
    intro c hc
    exact Option.noConfusion hc
  | of_reconnect hs newOk now pushOk h ih =>
    refine connect_registerInv ?_ newOk now pushOk h
    intro c hc
    exact Option.noConfusion hc

/-- C6.  While a `RouterService` conduit is stored ("Connected"), a
register envelope has been pushed onto the upstream sender before any
packet envelope, in every state reachable through the service's
operations: `connect` pushes the signed register on the fresh conduit
before storing it and only stores it when registration succeeded, and
`send` only pushes packets through a stored conduit (connecting first when
disconnected). -/
theorem router_register_before_packet (s : RouterService) (hs : Reachable s)
    (c : RouterConduit) (hc : s.conduit = some c) : registerFirst c.tx_sent :=
  headRegister_registerFirst (reachable_registerInv s hs c hc)

/-- A concrete keypair whose signing function always succeeds. -/
def keypairW : Keypair := ⟨[1], fun _ => .ok [2]⟩

/-- A freshly constructed router service. -/
def routerW0 : RouterService := RouterService.new [0] keypairW

/-- The service after one successful `connect` (at time 5). -/
def routerW1 : RouterService := (routerW0.connect true 5 true).1

/-- The conduit stored by that successful connect. -/
def conduitW : RouterConduit := ⟨[.register ⟨5, [1], [2]⟩]⟩

/-- The connected state indeed stores `conduitW`. -/
theorem routerW1_conduit : routerW1.conduit = some conduitW := rfl

/-- C6 witness: the invariant at the concrete reachable connected state. -/
theorem router_register_before_packet_witness : registerFirst conduitW.tx_sent :=
  router_register_before_packet routerW1
    (Reachable.of_connect (Reachable.of_new [0] keypairW) true 5 true rfl)
    conduitW routerW1_conduit

/-- The `recv` on a service with no conduit suspends (returns no value). -/
theorem recv_none_of_disconnected {s : RouterService} (h : s.conduit = none)
    (o : RecvOutcome) : s.recv o = none := by
  unfold RouterService.recv
  rw [h]

/-- C8.  `RouterService::recv` called while disconnected never returns: it
awaits a forever-pending future, yields no packet, touches no state and
attempts no connect; reconnection is left to a later `send`/`reconnect`. -/
theorem router_recv_disconnected_pends (s : RouterService) (o : RecvOutcome)
    (h : s.conduit = none) : s.recv o = none :=
  recv_none_of_disconnected h o

/-- C8 witness: `recv` on a freshly constructed (disconnected) service. -/
theorem router_recv_disconnected_pends_witness :
    routerW0.recv .closed = none :=
  router_recv_disconnected_pends routerW0 .closed rfl

/-- C9.  Whenever `recv` on a connected service returns anything other
than `Ok(Some(packet))` — `Ok(None)` on clean stream end, or any error
including `InvalidEnvelope` on an unknown envelope variant — the service
is left disconnected, so a subsequent `recv` with no intervening connect
suspends indefinitely. -/
theorem router_recv_nonpacket_disconnects (s : RouterService)
    (c : RouterConduit) (o : RecvOutcome) (s' : RouterService)
    (r : Except Error (Option PacketRouterPacketDownV1))
    (hc : s.conduit = some c) (h : s.recv o = some (s', r))
    (hnp : ∀ p, r ≠ .ok (some p)) :
    s'.conduit = none ∧ ∀ o' : RecvOutcome, s'.recv o' = none := by
  unfold RouterService.recv at h
  split at h
  · exact Option.noConfusion h
  · split at h
    · rename_i m _
      simp only [Option.some.injEq, Prod.mk.injEq] at h
      exact absurd h.2.symm (hnp m)
    · simp only [Option.some.injEq, Prod.mk.injEq] at h
      obtain ⟨hs', _⟩ := h
      subst hs'
      exact ⟨rfl, fun o' => recv_none_of_disconnected rfl o'⟩
    · simp only [Option.some.injEq, Prod.mk.injEq] at h
      obtain ⟨hs', _⟩ := h
      subst hs'
      exact ⟨rfl, fun o' => recv_none_of_disconnected rfl o'⟩

/-- C9 witness: a clean stream end on the concrete connected state drops
the conduit and the next `recv` suspends. -/
theorem router_recv_nonpacket_disconnects_witness :
    routerW1.disconnect.conduit = none ∧
      ∀ o' : RecvOutcome, routerW1.disconnect.recv o' = none :=
  router_recv_nonpacket_disconnects routerW1 conduitW .closed
    routerW1.disconnect (.ok none) routerW1_conduit rfl
    (fun p hp => by simp at hp)
